import Mathlib

/-!
A shallow embedding of the WayneFS sources (disk.py, cache.py, bitmap.py,
layout.py, journal.py, transaction.py, waynefs.py, mkwaynefs.py) and proofs
about them.

Conventions used throughout:
* Byte strings are `List Nat` with every element intended `< 256`.
* Python exceptions are modelled by the `PyErr` enum; a function that can
  raise returns `Except PyErr _`, and a method that mutates `self` returns
  the mutated state together with the outcome, since in Python mutations
  performed before a raise persist on the object.
* `struct.pack` range failures (a value not fitting its format code) are
  modelled by `Option`/`PyErr.structError`.
* Python dicts are modelled as insertion-ordered association lists.
-/

namespace WayneFSModel

/-- Python exception kinds observable in this code base.  `diverge` is not a
Python exception: it marks a loop that Python would never exit (used as the
out-of-fuel result of loops whose exit is data-dependent). -/
inductive PyErr where
  | keyError
  | typeError
  | valueError
  | structError
  | assertionError
  | attributeError
  | unicodeError
  | zeroDivisionError
  | indexError
  | diverge
  | osEBADF
  | osEFBIG
  | osENOSPC
  | osENOENT
deriving DecidableEq, Repr

/-- `except (ValueError, struct.error)` in `Journal.recover` and the
per-entry handler of `unpack_dir` catch exactly these kinds. -/
def pyCaught : PyErr → Bool
  | .valueError => true
  | .structError => true
  | _ => false

/-! ### Little-endian integer coding (struct "<I", "<H", "<Q") -/

/-- Little-endian bytes of `n`, `k` bytes wide (total; used via the packers
below which perform the `struct` range check first). -/
def leBytes (n : Nat) : Nat → List Nat
  | 0 => []
  | k + 1 => n % 256 :: leBytes (n / 256) k

/-- struct.pack "<I": range-checked 4-byte little-endian. -/
def packU32 (n : Nat) : Option (List Nat) :=
  if n < 2 ^ 32 then some (leBytes n 4) else none

/-- struct.pack "<H": range-checked 2-byte little-endian. -/
def packU16 (n : Nat) : Option (List Nat) :=
  if n < 2 ^ 16 then some (leBytes n 2) else none

/-- struct.pack "<Q": range-checked 8-byte little-endian. -/
def packU64 (n : Nat) : Option (List Nat) :=
  if n < 2 ^ 64 then some (leBytes n 8) else none

/-- Read a little-endian u32 at byte offset `off` (missing bytes read as 0;
all uses in this development read inside the buffer). -/
def readU32 (b : List Nat) (off : Nat) : Nat :=
  b.getD off 0 + 256 * b.getD (off + 1) 0 + 65536 * b.getD (off + 2) 0 +
    16777216 * b.getD (off + 3) 0

/-- Read a little-endian u16 at byte offset `off`. -/
def readU16 (b : List Nat) (off : Nat) : Nat :=
  b.getD off 0 + 256 * b.getD (off + 1) 0

/-- Read a little-endian u64 at byte offset `off`. -/
def readU64 (b : List Nat) (off : Nat) : Nat :=
  readU32 b off + 4294967296 * readU32 b (off + 4)

/-- `bytes.ljust(width, b"\x00")`: pad on the right with zero bytes; like
Python's `ljust`, it never truncates. -/
def ljustZero (b : List Nat) (width : Nat) : List Nat :=
  b ++ List.replicate (width - b.length) 0

/-! ### Magic constants (layout.py, journal.py) -/

/-- `b"WAYNE_FS"` -/
def FS_MAGIC : List Nat := [87, 65, 89, 78, 69, 95, 70, 83]

/-- `b"WAYNE_JOURNAL"` (13 bytes) -/
def JOURNAL_MAGIC : List Nat :=
  [87, 65, 89, 78, 69, 95, 74, 79, 85, 82, 78, 65, 76]

/-- `b"WAYNE_JOURNAL_SB"` (16 bytes) -/
def JOURNAL_SB_MAGIC : List Nat :=
  [87, 65, 89, 78, 69, 95, 74, 79, 85, 82, 78, 65, 76, 95, 83, 66]

/-! ### Journal record codecs (journal.py lines 43-106) -/

/-- `JournalHeader` (journal.py line 43); the `magic` field always holds
`JOURNAL_MAGIC` after a successful `unpack`, so it is kept implicit. -/
structure JHeader where
  blockType : Nat
  tid : Nat
deriving DecidableEq, Repr

/-- `JournalHeader.pack`: `struct.pack("<13sII", magic, block_type, tid)`. -/
def jheaderPack (h : JHeader) : Option (List Nat) := do
  let bt ← packU32 h.blockType
  let t ← packU32 h.tid
  pure (JOURNAL_MAGIC ++ bt ++ t)

/-- `JournalHeader.unpack`: unpack `data[:21]`, then check the magic
(raising `ValueError` on mismatch, `struct.error` on a short buffer). -/
def jheaderUnpack (data : List Nat) : Except PyErr JHeader :=
  if data.length < 21 then .error .structError
  else if data.take 13 ≠ JOURNAL_MAGIC then .error .valueError
  else .ok ⟨readU32 data 13, readU32 data 17⟩

/-- `JournalSuperblock` (journal.py line 20); magic kept implicit. -/
structure JournalSB where
  startBlock : Nat
  numBlocks : Nat
  head : Nat
  tail : Nat
  lastTid : Nat
deriving DecidableEq, Repr

/-- `JournalSuperblock.pack`: `struct.pack("<16sIIIII", ...)`. -/
def jsbPack (j : JournalSB) : Option (List Nat) := do
  let a ← packU32 j.startBlock
  let b ← packU32 j.numBlocks
  let c ← packU32 j.head
  let d ← packU32 j.tail
  let e ← packU32 j.lastTid
  pure (JOURNAL_SB_MAGIC ++ a ++ b ++ c ++ d ++ e)

/-- `JournalSuperblock.unpack` (magic check raises `ValueError`). -/
def jsbUnpack (data : List Nat) : Except PyErr JournalSB :=
  if data.length < 36 then .error .structError
  else if data.take 16 ≠ JOURNAL_SB_MAGIC then .error .valueError
  else .ok ⟨readU32 data 16, readU32 data 20, readU32 data 24,
            readU32 data 28, readU32 data 32⟩

/-- `DescriptorBlock` (journal.py line 63), as `pack` consumes it. -/
structure DescBlock where
  header : JHeader
  numBlocks : Nat
  finalBlockAddr : List Nat
deriving DecidableEq, Repr

/-- `DescriptorBlock.pack`: header, then `"<I"` count, then each address. -/
def descPack (d : DescBlock) : Option (List Nat) := do
  let h ← jheaderPack d.header
  let n ← packU32 d.numBlocks
  let addrs ← d.finalBlockAddr.mapM packU32
  pure (h ++ n ++ addrs.flatten)

/-- Dynamic values, modelling the raw results of `struct.unpack` (which
returns a tuple) as `DescriptorBlock.unpack` manipulates them. -/
inductive PyVal where
  | int (n : Nat)
  | bytes (b : List Nat)
  | tup (vs : List PyVal)
deriving Repr

/-- Python `range(x)`: raises `TypeError` unless `x` is an integer. -/
def pyRange : PyVal → Except PyErr (List Nat)
  | .int n => .ok (List.range n)
  | _ => .error .typeError

/-- `DescriptorBlock.unpack` (journal.py line 80), faithfully: it binds the
raw tuples that `struct.unpack` returns (never rebuilding `JournalHeader`
or extracting `num_blocks` from its 1-tuple), and then evaluates
`range(num_blocks)` on that tuple — which raises `TypeError`.  The code
after `pyRange` is therefore dead; it is kept to mirror the source loop. -/
def descUnpack (data : List Nat) : Except PyErr (List PyVal) :=
  if data.length < 21 then .error .structError
  else
    let _header : PyVal :=
      .tup [.bytes (data.take 13), .int (readU32 data 13), .int (readU32 data 17)]
    if data.length < 25 then .error .structError
    else
      let numBlocks : PyVal := .tup [.int (readU32 data 21)]
      match pyRange numBlocks with
      | .error e => .error e
      | .ok ks => .ok (ks.map fun k => .tup [.int (readU32 data (25 + 4 * k))])

/-- `CommitBlock.pack` is just the header's pack. -/
def commitPack (h : JHeader) : Option (List Nat) := jheaderPack h

/-- `CommitBlock.unpack` delegates to `JournalHeader.unpack`. -/
def commitUnpack (data : List Nat) : Except PyErr JHeader := jheaderUnpack data

/-! ### Inode codec (layout.py lines 38-79) -/

/-- `Inode` dataclass. -/
structure Inode where
  mode : Nat
  nlink : Nat
  size : Nat
  ctime : Nat
  mtime : Nat
  atime : Nat
  direct : List Nat
deriving DecidableEq, Repr

/-- `Inode.pack`: `<I` mode, `<I` nlink, `<Q` size/ctime/mtime/atime, then
12 `<I` direct pointers (`self.direct[idx]` for idx in range(12); a short
`direct` list would raise IndexError, also modelled as `none`). -/
def inodePack (i : Inode) : Option (List Nat) := do
  if i.direct.length < 12 then none
  else
    let m ← packU32 i.mode
    let n ← packU32 i.nlink
    let s ← packU64 i.size
    let c ← packU64 i.ctime
    let mt ← packU64 i.mtime
    let a ← packU64 i.atime
    let ds ← (i.direct.take 12).mapM packU32
    pure (m ++ n ++ s ++ c ++ mt ++ a ++ ds.flatten)

/-- `Inode.unpack` via `struct.unpack_from` at fixed offsets.  (In Python a
buffer shorter than 88 bytes raises `struct.error`; every call in this
development passes a buffer of at least 88 bytes.) -/
def inodeUnpack (raw : List Nat) : Inode :=
  { mode := readU32 raw 0
    nlink := readU32 raw 4
    size := readU64 raw 8
    ctime := readU64 raw 16
    mtime := readU64 raw 24
    atime := readU64 raw 32
    direct := (List.range 12).map fun idx => readU32 raw (40 + 4 * idx) }

/-! ### Directory codec (layout.py `DictEnDecoder`)

Entry names are modelled as their UTF-8 byte sequences; Python's
`str.encode("utf-8")`/`bytes.decode("utf-8")` round-trip is the identity on
those sequences, and `decode` of an invalid sequence raises
`UnicodeDecodeError` (checked by `utf8Valid` below). -/

/-- Number of continuation bytes demanded by a UTF-8 lead byte, together
with the admissible range of the first continuation byte. -/
def utf8Lead (b : Nat) : Option (Nat × Nat × Nat) :=
  if b < 128 then some (0, 128, 191)
  else if 194 ≤ b ∧ b ≤ 223 then some (1, 128, 191)
  else if b = 224 then some (2, 160, 191)
  else if b = 237 then some (2, 128, 159)
  else if (225 ≤ b ∧ b ≤ 236) ∨ (238 ≤ b ∧ b ≤ 239) then some (2, 128, 191)
  else if b = 240 then some (3, 144, 191)
  else if 241 ≤ b ∧ b ≤ 243 then some (3, 128, 191)
  else if b = 244 then some (3, 128, 143)
  else none

/-- Check that `k` continuation bytes follow, the first within
`[lo, hi]`, the rest within `[128, 191]`. -/
def utf8Conts : List Nat → Nat → Nat → Nat → Option (List Nat)
  | rest, 0, _, _ => some rest
  | b :: rest, k + 1, lo, hi =>
      if lo ≤ b ∧ b ≤ hi then utf8Conts rest k 128 191 else none
  | [], _ + 1, _, _ => none

/-- Strict UTF-8 validity of a byte sequence; the fuel (passed as
`length + 1` by `utf8Valid`) dominates the iteration count, since every
step consumes at least the lead byte. -/
def utf8ValidAux : Nat → List Nat → Bool
  | 0, l => l.isEmpty
  | _ + 1, [] => true
  | fuel + 1, b :: rest =>
    match utf8Lead b with
    | none => false
    | some (k, lo, hi) =>
      match utf8Conts rest k lo hi with
      | none => false
      | some rest2 => utf8ValidAux fuel rest2

/-- Strict UTF-8 validity of a byte sequence. -/
def utf8Valid (l : List Nat) : Bool := utf8ValidAux (l.length + 1) l

/-- One directory entry as `pack_dir` consumes it: `(inode_number, name)`. -/
abbrev DirEntry := Nat × List Nat

/-- `DictEnDecoder.pack_dir`: per entry `struct.pack(f"<IH{n}s", ino, n,
name)`, then a `<I` total-length header in front. -/
def packDir (entries : List DirEntry) : Option (List Nat) := do
  let parts ← entries.mapM fun e => do
    let i ← packU32 e.1
    let n ← packU16 e.2.length
    pure (i ++ n ++ e.2)
  let data := parts.flatten
  let header ← packU32 data.length
  pure (header ++ data)

/-- The entry-walking loop of `unpack_dir`: stops (`break`) on a short
entry header, a name extending past the slice, or an invalid UTF-8 name
(`UnicodeDecodeError` is caught).  `fuel` dominates the iteration count;
each step consumes at least 6 bytes of the slice. -/
def unpackDirLoop (ds : List Nat) : Nat → Nat → List DirEntry
  | _, 0 => []
  | offset, fuel + 1 =>
    if offset < ds.length then
      if offset + 6 > ds.length then []
      else
        let ino := readU32 ds offset
        let nlen := readU16 ds (offset + 4)
        if offset + 6 + nlen > ds.length then []
        else
          let name := (ds.drop (offset + 6)).take nlen
          if utf8Valid name then
            (ino, name) :: unpackDirLoop ds (offset + 6 + nlen) fuel
          else []
    else []

/-- `DictEnDecoder.unpack_dir`. -/
def unpackDir (raw : List Nat) : List DirEntry :=
  if raw.length < 4 then []
  else
    let totalLen := readU32 raw 0
    if totalLen = 0 then []
    else
      let effEnd := min (4 + totalLen) raw.length
      let ds := (raw.drop 4).take (effEnd - 4)
      unpackDirLoop ds 0 (ds.length + 1)

/-! ### Main superblock format (layout.py `SB_FMT`, mkwaynefs.py) -/

/-- The format codes of `SB_FMT = "<8sIIIIIIIIIII"`: one `8s` and eleven
`I` — 12 items in total. -/
inductive SBItem where
  | s8
  | u32
deriving DecidableEq, Repr

/-- `SB_FMT` as the list of its format codes. -/
def SB_FMT : List SBItem :=
  [.s8, .u32, .u32, .u32, .u32, .u32, .u32, .u32, .u32, .u32, .u32, .u32]

/-- An argument passed to `struct.pack`. -/
inductive PackArg where
  | bs (b : List Nat)
  | nat (v : Nat)
deriving DecidableEq, Repr

/-- Pack one argument against one format code (`8s` zero-pads/truncates to
8 bytes; a type mismatch is a `struct.error`). -/
def packOne : SBItem → PackArg → Option (List Nat)
  | .s8, .bs b => some ((b.take 8) ++ List.replicate (8 - b.length) 0)
  | .u32, .nat v => packU32 v
  | _, _ => none

/-- `struct.pack(fmt, *args)`: fails (struct.error: "pack expected N items")
unless the argument count equals the format's item count. -/
def structPackSB (fmt : List SBItem) (args : List PackArg) : Option (List Nat) :=
  if fmt.length = args.length then
    (fmt.zip args).mapM (fun p => packOne p.1 p.2) |>.map List.flatten
  else none

/-- The superblock bytes `make_image` attempts to produce (mkwaynefs.py
lines 50-66): `struct.pack(SB_FMT, MAGIC, block_size, total_blocks,
inode_count, inode_bitmap_start, inode_bitmap_blocks, block_bitmap_start,
block_bitmap_blocks, inode_table_start, inode_blocks, journal_area_start,
journal_area_blocks, data_start, 0)` — fourteen arguments. -/
def makeImageSuperblock (blockSize totalBlocks inodeCount ibStart ibBlocks
    bbStart bbBlocks itStart itBlocks jaStart jaBlocks dataStart : Nat) :
    Option (List Nat) :=
  structPackSB SB_FMT
    [.bs FS_MAGIC, .nat blockSize, .nat totalBlocks, .nat inodeCount,
     .nat ibStart, .nat ibBlocks, .nat bbStart, .nat bbBlocks,
     .nat itStart, .nat itBlocks, .nat jaStart, .nat jaBlocks,
     .nat dataStart, .nat 0]

/-! ### Mount-wide state

One state record holds the fields of `Disk`, `PageCache`, `DentryCache`,
`BlockBitmap`, `Journal` and `WayneFS` that the verified operations touch.
(The inode bitmap is not consulted by any operation modelled here.) -/

/-- `cache.CachedPage`: a mutable page object (`data`, `dirty`). -/
structure CachedPage where
  data : List Nat
  dirty : Bool
deriving DecidableEq, Repr

/-- `layout.OpenFileState`. -/
structure OpenFile where
  ino : Nat
  flags : Nat
  offset : Nat
deriving DecidableEq, Repr

/-- `bitmap.Bitmap`: backing buffer plus the layout parameters used here. -/
structure BitmapSt where
  startBlock : Nat
  numBlocks : Nat
  buf : List Nat
  totalItems : Nat
deriving DecidableEq, Repr

/-- `transaction.Transaction`: staging map (insertion-ordered,値 =
`(block_type, block_data)`) and the ordered-data set. -/
structure Tx where
  tid : Nat
  writeBuffer : List (Nat × String × List Nat)
  orderedData : List Nat
deriving DecidableEq, Repr

/-- The mount-wide state. -/
structure FS where
  blockSize : Nat
  dataStart : Nat
  inodeTableStart : Nat
  journalAreaStart : Nat
  disk : List (Nat × List Nat)
  cache : List (Nat × CachedPage)
  dentryCache : List (List Nat × Nat)
  blockBitmap : BitmapSt
  jsb : JournalSB
  nextTid : Nat
  openFileTable : List (Nat × OpenFile)
  now : Nat
deriving DecidableEq, Repr

/-- Lookup in an insertion-ordered association list (Python dict read). -/
def assocFind {α β : Type} [DecidableEq α] (l : List (α × β)) (k : α) : Option β :=
  (l.find? fun p => p.1 = k).map (·.2)

/-- Update/insert in an insertion-ordered association list (Python dict
write: overwrite keeps the position, a new key goes to the end). -/
def assocSet {α β : Type} [DecidableEq α] (l : List (α × β)) (k : α) (v : β) :
    List (α × β) :=
  if (l.find? fun p => p.1 = k).isSome then
    l.map fun p => if p.1 = k then (k, v) else p
  else l ++ [(k, v)]

/-! ### Disk (disk.py) -/

/-- `Disk.read_block`.  Unwritten blocks read as zeros; in Python a read
past the end of the image returns a short buffer instead, and both make
every header parse fail identically (struct.error vs ValueError, caught
the same way everywhere they matter). -/
def diskReadBlock (fs : FS) (addr : Nat) : List Nat :=
  (assocFind fs.disk addr).getD (List.replicate fs.blockSize 0)

/-- `Disk.write_block`: `assert len(data) == block_size`. -/
def diskWriteBlock (fs : FS) (addr : Nat) (b : List Nat) : FS × Except PyErr Unit :=
  if b.length = fs.blockSize then
    ({fs with disk := assocSet fs.disk addr b}, .ok ())
  else (fs, .error .assertionError)

/-- One byte of the byte-addressed view of the disk. -/
def diskByte (fs : FS) (off : Nat) : Nat :=
  if fs.blockSize = 0 then 0
  else (diskReadBlock fs (off / fs.blockSize)).getD (off % fs.blockSize) 0

/-- `Disk.read_at`. -/
def diskReadAt (fs : FS) (off len : Nat) : List Nat :=
  (List.range len).map fun j => diskByte fs (off + j)

/-! ### Page cache (cache.py, waynefs.py cache helpers) -/

/-- `PageCache.get`: `self._cache[block_addr]` — raises `KeyError` when the
address is absent. -/
def pageCacheGet (fs : FS) (addr : Nat) : Except PyErr CachedPage :=
  match assocFind fs.cache addr with
  | none => .error .keyError
  | some p => .ok p

/-- `PageCache.put`: replace with a fresh clean page. -/
def pageCachePut (fs : FS) (addr : Nat) (b : List Nat) : FS :=
  {fs with cache := assocSet fs.cache addr ⟨b, false⟩}

/-- `PageCache.is_cached`. -/
def pageCacheIsCached (fs : FS) (addr : Nat) : Bool :=
  (assocFind fs.cache addr).isSome

/-- waynefs.py `_read_block_cached`: since `PageCache.get` raises
`KeyError` on a miss, the `is not None` test never fails and the
device-read fallback (lines 321-323) is dead code; on a hit the
`CachedPage` object itself is returned, not its byte content. -/
def readBlockCached (fs : FS) (addr : Nat) : FS × Except PyErr CachedPage :=
  match pageCacheGet fs addr with
  | .error e => (fs, .error e)
  | .ok page => (fs, .ok page)

/-- waynefs.py `_write_block_cached`: write-through, then cache. -/
def writeBlockCached (fs : FS) (addr : Nat) (b : List Nat) : FS × Except PyErr Unit :=
  match diskWriteBlock fs addr b with
  | (fs, .error e) => (fs, .error e)
  | (fs, .ok ()) => (pageCachePut fs addr b, .ok ())

/-! ### Block bitmap (bitmap.py) -/

/-- `Bitmap.is_set` (the callers below only probe indices inside
`total_items`, where `_byte_bit` cannot raise). -/
def bmIsSet (bm : BitmapSt) (i : Nat) : Bool :=
  (bm.buf.getD (i / 8) 0 >>> (i % 8)) &&& 1 == 1

/-- `Bitmap.set`. -/
def bmSetBit (bm : BitmapSt) (i : Nat) : BitmapSt :=
  {bm with buf := bm.buf.set (i / 8) (bm.buf.getD (i / 8) 0 ||| (1 <<< (i % 8)))}

/-- `Bitmap.find_free_entry`: scan from `i` while `i < total_items`; the
fuel equals the remaining index range, so it never runs out. `none` stands
for the Python return value `-1`. -/
def bmFindFreeAux (bm : BitmapSt) : Nat → Nat → Option Nat
  | _, 0 => none
  | i, fuel + 1 => if bmIsSet bm i then bmFindFreeAux bm (i + 1) fuel else some i

/-- `Bitmap.find_free_entry(start)`. -/
def bmFindFree (bm : BitmapSt) (start : Nat) : Option Nat :=
  bmFindFreeAux bm start (bm.totalItems - start)

/-- waynefs.py `_alloc_block`: `find_free_block(data_start)` (which scans
from `max(1, data_start)`), `ENOSPC` on exhaustion, then `set_used`. -/
def allocBlock (fs : FS) : FS × Except PyErr Nat :=
  match bmFindFree fs.blockBitmap (max 1 fs.dataStart) with
  | none => (fs, .error .osENOSPC)
  | some idx => ({fs with blockBitmap := bmSetBit fs.blockBitmap idx}, .ok idx)

/-! ### Transaction staging (transaction.py, bitmap.py flush) -/

/-- `Transaction.write`: asserts a block-sized payload, then
inserts/overwrites under the final address. -/
def txWrite (fs : FS) (tx : Tx) (addr : Nat) (b : List Nat) (kind : String) :
    Tx × Except PyErr Unit :=
  if b.length = fs.blockSize then
    ({tx with writeBuffer := assocSet tx.writeBuffer addr (kind, b)}, .ok ())
  else (tx, .error .assertionError)

/-- The staging loop of `Bitmap.flush(tx)`. -/
def bitmapFlushTxAux (fs : FS) (bm : BitmapSt) (tx : Tx) :
    Nat → Nat → Tx × Except PyErr Unit
  | _, 0 => (tx, .ok ())
  | i, k + 1 =>
    let slice := (bm.buf.drop (i * fs.blockSize)).take fs.blockSize
    match txWrite fs tx (bm.startBlock + i) slice "Block Bitmap" with
    | (tx, .error e) => (tx, .error e)
    | (tx, .ok ()) => bitmapFlushTxAux fs bm tx (i + 1) k

/-- `BlockBitmap.flush(tx)`: stage every bitmap block into `tx`. -/
def blockBitmapFlushTx (fs : FS) (tx : Tx) : Tx × Except PyErr Unit :=
  bitmapFlushTxAux fs fs.blockBitmap tx 0 fs.blockBitmap.numBlocks

/-! ### Inode table (layout.py `InodeTable`) -/

/-- `InodeTable.read`: 128 bytes at `inode_table_start * B + ino * 128`. -/
def inodeTableRead (fs : FS) (ino : Nat) : Inode :=
  inodeUnpack (diskReadAt fs (fs.inodeTableStart * fs.blockSize + ino * 128) 128)

/-- layout.py `InodeTable.write(self, ino, inode)` accepts no transaction
argument, but every journalled caller in waynefs.py passes one
(`self.inode_table.write(ino, inode, tx)`), so the call raises
`TypeError` before any effect. -/
def inodeTableWriteTx (fs : FS) (_ino : Nat) (_inode : Inode) (tx : Tx) :
    FS × Tx × Except PyErr Unit :=
  (fs, tx, .error .typeError)

/-! ### Journal (journal.py `Journal`) -/

/-- `_get_next_log_block`: `start + ((curr - start) + 1) % num_blocks`;
Python raises `ZeroDivisionError` for an empty ring, and computes the
modulus on a possibly negative difference, hence the `Int` arithmetic. -/
def nextLogBlock (j : JournalSB) (curr : Nat) : Except PyErr Nat :=
  if j.numBlocks = 0 then .error .zeroDivisionError
  else .ok (j.startBlock +
    (((curr : Int) - (j.startBlock : Int) + 1).emod (j.numBlocks : Int)).toNat)

/-- `Journal.__init__` line 150: `self.next_tid = journal_sb.last_tid + 1`
(after the journal superblock was loaded). -/
def mountJournal (fs : FS) (j : JournalSB) : FS :=
  {fs with jsb := j, nextTid := j.lastTid + 1}

/-- `Journal.begin` (line 157): `self.next_tid += 1`, then the transaction
is created with that tid. -/
def beginTid (fs : FS) : FS × Nat :=
  ({fs with nextTid := fs.nextTid + 1}, fs.nextTid + 1)

/-- One iteration of the ordered-data flush in `Journal.commit`. -/
def flushOrderedOne (fs : FS) (addr : Nat) : FS × Except PyErr Unit :=
  if pageCacheIsCached fs addr then
    match pageCacheGet fs addr with
    | .error e => (fs, .error e)
    | .ok page =>
      if page.dirty then
        match diskWriteBlock fs addr page.data with
        | (fs, .error e) => (fs, .error e)
        | (fs, .ok ()) =>
          ({fs with cache := assocSet fs.cache addr ⟨page.data, false⟩}, .ok ())
      else (fs, .ok ())
  else (fs, .ok ())

/-- The ordered-data flush loop of `Journal.commit` (the `fsync` that
follows it has no observable effect in this model). -/
def flushOrdered (fs : FS) : List Nat → FS × Except PyErr Unit
  | [] => (fs, .ok ())
  | a :: rest =>
    match flushOrderedOne fs a with
    | (fs, .error e) => (fs, .error e)
    | (fs, .ok ()) => flushOrdered fs rest

/-- The data-block loop of `Journal.commit`: each staged payload goes to
the next ring slot. -/
def commitDataLoop (fs : FS) (curr : Nat) :
    List (Nat × String × List Nat) → FS × Nat × Except PyErr Unit
  | [] => (fs, curr, .ok ())
  | (_, _, bdata) :: rest =>
    match nextLogBlock fs.jsb curr with
    | .error e => (fs, curr, .error e)
    | .ok c =>
      match diskWriteBlock fs c bdata with
      | (fs, .error e) => (fs, c, .error e)
      | (fs, .ok ()) => commitDataLoop fs c rest

/-- The checkpoint loop of `Journal.commit`: each staged payload goes to
its final destination. -/
def commitReplayLoop (fs : FS) :
    List (Nat × String × List Nat) → FS × Except PyErr Unit
  | [] => (fs, .ok ())
  | (addr, _, bdata) :: rest =>
    match diskWriteBlock fs addr bdata with
    | (fs, .error e) => (fs, .error e)
    | (fs, .ok ()) => commitReplayLoop fs rest

/-- `Journal.commit` (journal.py lines 168-218).  Note the guard: it
returns early only when *both* the staging map and the ordered-data set
are empty. -/
def commitFS (fs : FS) (tx : Tx) : FS × Except PyErr Unit :=
  if tx.writeBuffer = [] ∧ tx.orderedData = [] then (fs, .ok ())
  else
    match flushOrdered fs tx.orderedData with
    | (fs, .error e) => (fs, .error e)
    | (fs, .ok ()) =>
      let desc : DescBlock :=
        ⟨⟨1, tx.tid⟩, tx.writeBuffer.length, tx.writeBuffer.map (·.1)⟩
      match descPack desc with
      | none => (fs, .error .structError)
      | some db =>
        match diskWriteBlock fs fs.jsb.tail (ljustZero db fs.blockSize) with
        | (fs, .error e) => (fs, .error e)
        | (fs, .ok ()) =>
          match commitDataLoop fs fs.jsb.tail tx.writeBuffer with
          | (fs, _, .error e) => (fs, .error e)
          | (fs, curr, .ok ()) =>
            match nextLogBlock fs.jsb curr with
            | .error e => (fs, .error e)
            | .ok c2 =>
              match commitPack ⟨3, tx.tid⟩ with
              | none => (fs, .error .structError)
              | some cb =>
                match diskWriteBlock fs c2 (ljustZero cb fs.blockSize) with
                | (fs, .error e) => (fs, .error e)
                | (fs, .ok ()) =>
                  match nextLogBlock fs.jsb c2 with
                  | .error e => (fs, .error e)
                  | .ok c3 =>
                    let fs := {fs with jsb :=
                      {fs.jsb with tail := c3, lastTid := tx.tid}}
                    match jsbPack fs.jsb with
                    | none => (fs, .error .structError)
                    | some sb =>
                      match diskWriteBlock fs fs.journalAreaStart
                          (ljustZero sb fs.blockSize) with
                      | (fs, .error e) => (fs, .error e)
                      | (fs, .ok ()) =>
                        match commitReplayLoop fs tx.writeBuffer with
                        | (fs, .error e) => (fs, .error e)
                        | (fs, .ok ()) =>
                          let fs := {fs with jsb :=
                            {fs.jsb with head := fs.jsb.tail}}
                          match jsbPack fs.jsb with
                          | none => (fs, .error .structError)
                          | some sb2 =>
                            diskWriteBlock fs fs.journalAreaStart
                              (ljustZero sb2 fs.blockSize)

/-- The `while curr_block_no != tail` scan of `Journal.recover` (lines
233-258).  The loop mutates nothing on any path it completes: the only
branch that would replay (`COMMIT` with a buffered tid) first iterates
`(final_addr, data)` pairs out of a 2-tuple, raising a `ValueError` that
the surrounding handler catches as a break; and the `DESCRIPTOR` branch
raises `TypeError` inside `DescriptorBlock.unpack` before buffering
anything, so `pending` provably stays empty.  The fuel equals
`num_blocks`, which dominates the number of iterations whenever `tail` is
reachable from `head`; exhaustion models the non-terminating scan Python
would perform otherwise. -/
def recoverScan (fs : FS) : Nat → Nat → List Nat → Except PyErr Unit
  | 0, _, _ => .error .diverge
  | fuel + 1, curr, pending =>
    if curr = fs.jsb.tail then .ok ()
    else
      let data := diskReadBlock fs curr
      match jheaderUnpack data with
      | .error _ => .ok ()
      | .ok h =>
        if h.blockType = 1 then
          match descUnpack data with
          | .error e => if pyCaught e then .ok () else .error e
          | .ok _ =>
            -- dead code: `descUnpack` always raises TypeError; the source
            -- would next evaluate `desc_block.header.tid` on a raw tuple
            .error .attributeError
        else if h.blockType = 3 ∧ h.tid ∈ pending then .ok ()
        else
          match nextLogBlock fs.jsb curr with
          | .error e => .error e
          | .ok nxt => recoverScan fs fuel nxt pending

/-- `Journal.recover` (journal.py lines 221-262). -/
def recoverFS (fs : FS) : FS × Except PyErr Unit :=
  if fs.jsb.head = fs.jsb.tail then (fs, .ok ())
  else
    match recoverScan fs fs.jsb.numBlocks fs.jsb.head [] with
    | .error e => (fs, .error e)
    | .ok () =>
      let fs := {fs with jsb := {fs.jsb with head := fs.jsb.tail}}
      match jsbPack fs.jsb with
      | none => (fs, .error .structError)
      | some sb => diskWriteBlock fs fs.journalAreaStart (ljustZero sb fs.blockSize)

/-! ### Logical-to-physical block translation (waynefs.py) -/

/-- waynefs.py `_get_data_block_addr` (lines 162-197): the direct range
returns the pointer as stored; both indirect ranges immediately pass the
governing pointer — **without a zero check** — to `_read_block_cached`,
which raises `KeyError` on a cache miss and otherwise hands back a
`CachedPage`, whose subsequent byte-slicing raises `TypeError`. -/
def getDataBlockAddr (fs : FS) (inode : Inode) (i : Nat) : FS × Except PyErr Nat :=
  if i < 10 then (fs, .ok (inode.direct.getD i 0))
  else if i < 10 + fs.blockSize / 4 then
    match readBlockCached fs (inode.direct.getD 10 0) with
    | (fs, .error e) => (fs, .error e)
    | (fs, .ok _page) => (fs, .error .typeError)
  else
    match readBlockCached fs (inode.direct.getD 11 0) with
    | (fs, .error e) => (fs, .error e)
    | (fs, .ok _page) => (fs, .error .typeError)

/-- `if inode.direct[slot] == 0: inode.direct[slot] = self._alloc_block()`
as used by `_get_or_alloc_data_block_addr` for slots 10 and 11. -/
def ensureDirectSlot (fs : FS) (inode : Inode) (slot : Nat) :
    FS × Inode × Except PyErr Unit :=
  if inode.direct.getD slot 0 = 0 then
    match allocBlock fs with
    | (fs, .error e) => (fs, inode, .error e)
    | (fs, .ok a) => (fs, {inode with direct := inode.direct.set slot a}, .ok ())
  else (fs, inode, .ok ())

/-- waynefs.py `_get_or_alloc_data_block_addr` (lines 199-263): the direct
range allocates a missing leaf; both indirect ranges allocate a missing
root index block and then evaluate
`bytearray(self._read_block_cached(...))`, which raises `KeyError` on a
cache miss and `TypeError` on a hit (a `CachedPage` is not bytes-like). -/
def getOrAllocDataBlockAddr (fs : FS) (inode : Inode) (i : Nat) :
    FS × Inode × Except PyErr Nat :=
  if i < 10 then
    if inode.direct.getD i 0 = 0 then
      match allocBlock fs with
      | (fs, .error e) => (fs, inode, .error e)
      | (fs, .ok a) =>
        let inode := {inode with direct := inode.direct.set i a}
        (fs, inode, .ok (inode.direct.getD i 0))
    else (fs, inode, .ok (inode.direct.getD i 0))
  else if i < 10 + fs.blockSize / 4 then
    match ensureDirectSlot fs inode 10 with
    | (fs, inode, .error e) => (fs, inode, .error e)
    | (fs, inode, .ok ()) =>
      match readBlockCached fs (inode.direct.getD 10 0) with
      | (fs, .error e) => (fs, inode, .error e)
      | (fs, .ok _page) => (fs, inode, .error .typeError)
  else
    match ensureDirectSlot fs inode 11 with
    | (fs, inode, .error e) => (fs, inode, .error e)
    | (fs, inode, .ok ()) =>
      match readBlockCached fs (inode.direct.getD 11 0) with
      | (fs, .error e) => (fs, inode, .error e)
      | (fs, .ok _page) => (fs, inode, .error .typeError)

/-! ### `WayneFS.write` (waynefs.py lines 481-530) -/

/-- `10 + ADDRS_PER_BLOCK + ADDRS_PER_BLOCK**2` with
`ADDRS_PER_BLOCK = block_size // 4` (waynefs.py lines 32-33). -/
def maxBlocks (fs : FS) : Nat :=
  10 + fs.blockSize / 4 + (fs.blockSize / 4) * (fs.blockSize / 4)

/-- Python `range(a, b)`. -/
def pyRangeList (a b : Nat) : List Nat :=
  (List.range (b - a)).map (a + ·)

/-- The `finally` of the `Journal.begin` context manager: `commit` always
runs; an exception it raises replaces the body's outcome. -/
def finallyCommit (fs : FS) (tx : Tx) (r : Except PyErr Nat) : FS × Except PyErr Nat :=
  match commitFS fs tx with
  | (fs, .error e) => (fs, .error e)
  | (fs, .ok ()) => (fs, r)

/-- The allocation loop of `write`: `_get_or_alloc_data_block_addr` over
every covered logical block. -/
def allocLoop (fs : FS) (inode : Inode) : List Nat → FS × Inode × Except PyErr Unit
  | [] => (fs, inode, .ok ())
  | i :: rest =>
    match getOrAllocDataBlockAddr fs inode i with
    | (fs, inode, .error e) => (fs, inode, .error e)
    | (fs, inode, .ok _) => allocLoop fs inode rest

/-- The buffer-writing loop of `write`: a partial block read-modify-writes
(the pre-read of a `CachedPage` raises), a full block is written through
the cache. -/
def writeLoop (fs : FS) (inode : Inode) (data : List Nat)
    (offset startIdx endIdx : Nat) : List Nat → Nat → FS × Except PyErr Unit
  | [], _ => (fs, .ok ())
  | i :: rest, cursor =>
    let B := fs.blockSize
    let cs := if i = startIdx then offset % B else 0
    let ce := if i = endIdx then (offset + data.length - 1) % B + 1 else B
    match getDataBlockAddr fs inode i with
    | (fs, .error e) => (fs, .error e)
    | (fs, .ok addr) =>
      if cs ≠ 0 ∨ ce ≠ B then
        match readBlockCached fs addr with
        | (fs, .error e) => (fs, .error e)
        | (fs, .ok _page) => (fs, .error .typeError)
      else
        match writeBlockCached fs addr ((data.drop cursor).take B) with
        | (fs, .error e) => (fs, .error e)
        | (fs, .ok ()) =>
          writeLoop fs inode data offset startIdx endIdx rest (cursor + (ce - cs))

/-- `WayneFS.write(path, data, offset, fh)` (the `path` argument is unused
by the source).  Bad handle check, empty-write shortcut, block-index
computation, the `EFBIG` bound check, allocation loop, write loop, then
the journalled metadata update inside `with journal.begin() as tx`. -/
def fsWrite (fs : FS) (data : List Nat) (offset fh : Nat) : FS × Except PyErr Nat :=
  match assocFind fs.openFileTable fh with
  | none => (fs, .error .osEBADF)
  | some st =>
    let inode := inodeTableRead fs st.ino
    if data.length = 0 then (fs, .ok 0)
    else
      let startIdx := offset / fs.blockSize
      let endIdx := (offset + data.length - 1) / fs.blockSize
      if maxBlocks fs ≤ endIdx then (fs, .error .osEFBIG)
      else
        match allocLoop fs inode (pyRangeList startIdx (endIdx + 1)) with
        | (fs, _, .error e) => (fs, .error e)
        | (fs, inode, .ok ()) =>
          match writeLoop fs inode data offset startIdx endIdx
              (pyRangeList startIdx (endIdx + 1)) 0 with
          | (fs, .error e) => (fs, .error e)
          | (fs, .ok ()) =>
            let (fs, tid) := beginTid fs
            let tx : Tx := ⟨tid, [], []⟩
            let inode := {inode with size := max inode.size (offset + data.length),
                                     mtime := fs.now}
            match inodeTableWriteTx fs st.ino inode tx with
            | (fs, tx, .error e) => finallyCommit fs tx (.error e)
            | (fs, tx, .ok ()) =>
              match blockBitmapFlushTx fs tx with
              | (tx, .error e) => finallyCommit fs tx (.error e)
              | (tx, .ok ()) => finallyCommit fs tx (.ok data.length)

/-! ### Path resolution (waynefs.py `_lookup`) and `chmod`

Paths and path segments are modelled as their UTF-8 byte sequences
(`List Nat`); Python string equality coincides with byte equality of the
encodings.  `46` is `"."`, `47` is `"/"`. -/

/-- `[seg for seg in path.split("/") if seg]`. -/
def splitSlash (b : List Nat) : List (List Nat) :=
  (b.splitOn 47).filter (· ≠ [])

/-- waynefs.py `_read_dir_entries`: reads `direct[0]` through the page
cache and unpacks it.  `_read_block_cached` either raises `KeyError`
(cache miss) or returns the `CachedPage` object, on which `unpack_dir`
immediately evaluates `len(raw)` — a `TypeError` raised outside its
handler.  The entries result type is what a byte-level unpack would
produce. -/
def readDirEntries (fs : FS) (inode : Inode) : FS × Except PyErr (List DirEntry) :=
  match readBlockCached fs (inode.direct.getD 0 0) with
  | (fs, .error e) => (fs, .error e)
  | (fs, .ok _page) => (fs, .error .typeError)

/-- The symlink-target materialization inside `_lookup` (lines 128-140):
an inline target (`size ≤ 48`) is `struct.pack("<12I", *direct)` truncated
to `size`; a spilled target walks the data blocks, where
`target += self._read_block_cached(addr)` raises `TypeError` on a cache
hit (`bytearray += CachedPage`) and `KeyError` on a miss. -/
def symlinkTarget (fs : FS) (inode : Inode) : FS × Except PyErr (List Nat) :=
  if inode.size ≤ 48 then
    if inode.direct.length = 12 then
      match inode.direct.mapM packU32 with
      | none => (fs, .error .structError)
      | some ws => (fs, .ok (ws.flatten.take inode.size))
    else (fs, .error .structError)
  else
    match getDataBlockAddr fs inode 0 with
    | (fs, .error e) => (fs, .error e)
    | (fs, .ok addr) =>
      match readBlockCached fs addr with
      | (fs, .error e) => (fs, .error e)
      | (fs, .ok _page) => (fs, .error .typeError)

/-- The `while all_path_stack` loop of `_lookup` (lines 96-149).  The
stack is kept head-first (the head is the segment Python would pop next).
On resolving a symbolic link mid-path, an absolute target restarts at the
root with the target's segments spliced in front; a relative target
re-pushes the consumed name beneath the target's segments.  The fuel
dominates the iteration count on every reachable path (only `"."`
segments re-enter the loop without raising, because `_read_dir_entries`
always raises). -/
def lookupLoop (fs : FS) : Nat → Nat → List (List Nat) → FS × Except PyErr Nat
  | _, currIno, [] => (fs, .ok currIno)
  | 0, _, _ :: _ => (fs, .error .diverge)
  | fuel + 1, currIno, name :: stack =>
    if name = [46] then lookupLoop fs fuel currIno stack
    else if name = [46, 46] then
      let currInode := inodeTableRead fs currIno
      if currInode.mode &&& 0xF000 ≠ 0x4000 then (fs, .error .osENOENT)
      else
        match readDirEntries fs currInode with
        | (fs, .error e) => (fs, .error e)
        | (fs, .ok entries) =>
          let parent := (entries.find? fun e => e.2 = name).map (·.1)
          lookupLoop fs fuel (parent.getD 0) stack
    else
      let currInode := inodeTableRead fs currIno
      if currInode.mode &&& 0xF000 ≠ 0x4000 then (fs, .error .osENOENT)
      else
        match readDirEntries fs currInode with
        | (fs, .error e) => (fs, .error e)
        | (fs, .ok entries) =>
          match (entries.find? fun e => e.2 = name).map (·.1) with
          | none => (fs, .error .osENOENT)
          | some nextIno =>
            let nextInode := inodeTableRead fs nextIno
            if nextInode.mode &&& 0xF000 = 0xA000 ∧ stack ≠ [] then
              match symlinkTarget fs nextInode with
              | (fs, .error e) => (fs, .error e)
              | (fs, .ok target) =>
                if utf8Valid target then
                  if target.headD 0 = 47 then
                    lookupLoop fs fuel 0 (splitSlash target ++ stack)
                  else
                    lookupLoop fs fuel nextIno (splitSlash target ++ name :: stack)
                else (fs, .error .unicodeError)
            else lookupLoop fs fuel nextIno stack

/-- waynefs.py `_lookup`: root shortcut, dentry cache, segment loop, then
cache the result. -/
def lookupPath (fs : FS) (path : List Nat) : FS × Except PyErr Nat :=
  if path = [47] ∨ path = [] then (fs, .ok 0)
  else
    match assocFind fs.dentryCache path with
    | some ino => (fs, .ok ino)
    | none =>
      let stack := splitSlash path
      match lookupLoop fs (path.length + 1) 0 stack with
      | (fs, .error e) => (fs, .error e)
      | (fs, .ok ino) =>
        ({fs with dentryCache := assocSet fs.dentryCache path ino}, .ok ino)

/-- `WayneFS.chmod` (waynefs.py lines 778-787): resolve, read the inode,
and inside `with journal.begin() as tx` set
`mode = (mode & S_IFMT) | (new_mode & 0o777)` and `ctime`, then write the
inode record through the (transaction-less) inode table. -/
def fsChmod (fs : FS) (path : List Nat) (mode : Nat) : FS × Except PyErr Nat :=
  match lookupPath fs path with
  | (fs, .error e) => (fs, .error e)
  | (fs, .ok ino) =>
    let inode := inodeTableRead fs ino
    let (fs, tid) := beginTid fs
    let tx : Tx := ⟨tid, [], []⟩
    let inode := {inode with mode := (inode.mode &&& 0xF000) ||| (mode &&& 0o777),
                             ctime := fs.now}
    match inodeTableWriteTx fs ino inode tx with
    | (fs, tx, .error e) => finallyCommit fs tx (.error e)
    | (fs, tx, .ok ()) => finallyCommit fs tx (.ok 0)

/-! ### Concrete states and values used by the theorems below -/

/-- A clean journal superblock: ring at blocks 1..10, `head = tail`,
`last_tid = 0` (the state `make_image` intends to produce). -/
def jsbClean : JournalSB := ⟨1, 10, 1, 1, 0⟩

/-- A small mounted filesystem: 64-byte blocks, inode table at block 5,
journal superblock block 0, clean journal, empty page/dentry caches, one
open handle `3` on inode 0. -/
def fsBase : FS :=
  { blockSize := 64, dataStart := 8, inodeTableStart := 5, journalAreaStart := 0,
    disk := [], cache := [], dentryCache := [],
    blockBitmap := ⟨6, 1, List.replicate 8 0, 64⟩,
    jsb := jsbClean, nextTid := 1, openFileTable := [(3, ⟨0, 0, 0⟩)], now := 1000 }

/-- A well-formed descriptor block for tid 1 with one destination, 20. -/
def c1Desc : List Nat := ljustZero ((descPack ⟨⟨1, 1⟩, 1, [20]⟩).getD []) 64

/-- A well-formed commit block for tid 1. -/
def c1Commit : List Nat := ljustZero ((commitPack ⟨3, 1⟩).getD []) 64

/-- A journal holding exactly one fully committed transaction inside
`[head, tail)`: descriptor (block 1), its data block (block 2), commit
(block 3); `tail = 4`. -/
def fsC1 : FS :=
  { fsBase with
    jsb := ⟨1, 10, 1, 4, 1⟩
    disk := [(1, c1Desc), (2, List.replicate 64 7), (3, c1Commit)] }

/-- A journal with `head ≠ tail` whose window holds unparseable (zero)
blocks, so recovery stops the scan and cleans up. -/
def fsDirty : FS := { fsBase with jsb := ⟨1, 10, 1, 3, 0⟩ }

/-- A transaction with an empty staging map but a non-empty ordered-data
set. -/
def txOD : Tx := ⟨5, [], [3]⟩

/-- A valid packed inode. -/
def i8 : Inode := ⟨33188, 2, 5, 111, 222, 333, [1, 2, 3, 4, 5, 6, 7, 8, 9, 10, 11, 12]⟩

/-- Directory entries `[(0, "."), (0, ".."), (7, "ab")]` as bytes. -/
def ents8 : List DirEntry := [(0, [46]), (0, [46, 46]), (7, [97, 98])]

/-- A descriptor record for tid 7 with one destination, 42. -/
def d8 : DescBlock := ⟨⟨1, 7⟩, 1, [42]⟩

/-- A regular-file inode whose indirect pointers are all zero. -/
def inoZero : Inode := ⟨0x8000, 1, 0, 0, 0, 0, List.replicate 12 0⟩

/-- The root directory inode stored in `fsC10`. -/
def rootInode : Inode := ⟨0x41ED, 2, 12, 50, 60, 70, 8 :: List.replicate 11 0⟩

/-- The packed bytes of `rootInode`. -/
def rootBytes : List Nat := (inodePack rootInode).getD []

/-- `fsBase` with the root inode record actually present in the on-disk
inode table (inode 0 spans blocks 5 and 6 at 64-byte block size). -/
def fsC10 : FS :=
  { fsBase with disk :=
      [(5, ljustZero (rootBytes.take 64) 64), (6, ljustZero (rootBytes.drop 64) 64)] }

/-- `fsBase` with block 5 present on the device but not in the page
cache. -/
def fsC9 : FS := { fsBase with disk := [(5, List.replicate 64 9)] }

/-! ## Supporting lemmas (error-kind enumeration for `fsWrite`) -/

/-- `_alloc_block` can only fail with `ENOSPC`. -/
theorem allocBlock_error_enospc (fs fs2 : FS) (e : PyErr)
    (h : allocBlock fs = (fs2, .error e)) : e = .osENOSPC := by
  unfold allocBlock at h
  split at h <;> simp_all

/-- `_read_block_cached` can only fail with `KeyError`. -/
theorem readBlockCached_error_key (fs fs2 : FS) (addr : Nat) (e : PyErr)
    (h : readBlockCached fs addr = (fs2, .error e)) : e = .keyError := by
  unfold readBlockCached pageCacheGet at h
  rcases hc : assocFind fs.cache addr with _ | p <;> rw [hc] at h <;> simp_all

/-- Allocating a missing indirect root can only fail with `ENOSPC`. -/
theorem ensureDirectSlot_error_enospc (fs fs2 : FS) (inode i2 : Inode) (slot : Nat)
    (e : PyErr) (h : ensureDirectSlot fs inode slot = (fs2, i2, .error e)) :
    e = .osENOSPC := by
  unfold ensureDirectSlot at h
  split at h
  · rcases halloc : allocBlock fs with ⟨fs3, r⟩
    rw [halloc] at h
    cases r with
    | error e3 =>
      have h3 := allocBlock_error_enospc fs fs3 e3 halloc
      simp_all
    | ok a => simp_all
  · simp_all

/-- `_get_data_block_addr` can only fail with `KeyError` or `TypeError`. -/
theorem getDataBlockAddr_error_kt (fs fs2 : FS) (inode : Inode) (i : Nat) (e : PyErr)
    (h : getDataBlockAddr fs inode i = (fs2, .error e)) :
    e = .keyError ∨ e = .typeError := by
  unfold getDataBlockAddr at h
  split at h
  · simp_all
  · split at h
    · rcases hr : readBlockCached fs (inode.direct.getD 10 0) with ⟨fs3, r⟩
      rw [hr] at h
      cases r with
      | error e3 =>
        exact Or.inl (by have := readBlockCached_error_key fs fs3 _ e3 hr; simp_all)
      | ok p => simp_all
    · rcases hr : readBlockCached fs (inode.direct.getD 11 0) with ⟨fs3, r⟩
      rw [hr] at h
      cases r with
      | error e3 =>
        exact Or.inl (by have := readBlockCached_error_key fs fs3 _ e3 hr; simp_all)
      | ok p => simp_all

/-- `_get_or_alloc_data_block_addr` can only fail with `ENOSPC`,
`KeyError` or `TypeError`. -/
theorem getOrAlloc_error_kinds (fs fs2 : FS) (inode i2 : Inode) (i : Nat) (e : PyErr)
    (h : getOrAllocDataBlockAddr fs inode i = (fs2, i2, .error e)) :
    e = .osENOSPC ∨ e = .keyError ∨ e = .typeError := by
  unfold getOrAllocDataBlockAddr at h
  split at h
  · split at h
    · rcases halloc : allocBlock fs with ⟨fs3, r⟩
      rw [halloc] at h
      cases r with
      | error e3 =>
        exact Or.inl (by have := allocBlock_error_enospc fs fs3 e3 halloc; simp_all)
      | ok a => simp_all
    · simp_all
  · split at h
    · rcases hs : ensureDirectSlot fs inode 10 with ⟨fs3, i3, r⟩
      rw [hs] at h
      cases r with
      | error e3 =>
        exact Or.inl
          (by have := ensureDirectSlot_error_enospc fs fs3 inode i3 10 e3 hs; simp_all)
      | ok u =>
        cases u
        dsimp only at h
        rcases hr : readBlockCached fs3 (i3.direct.getD 10 0) with ⟨fs4, r2⟩
        rw [hr] at h
        cases r2 with
        | error e3 =>
          exact Or.inr (Or.inl
            (by have := readBlockCached_error_key fs3 fs4 _ e3 hr; simp_all))
        | ok p => simp_all
    · rcases hs : ensureDirectSlot fs inode 11 with ⟨fs3, i3, r⟩
      rw [hs] at h
      cases r with
      | error e3 =>
        exact Or.inl
          (by have := ensureDirectSlot_error_enospc fs fs3 inode i3 11 e3 hs; simp_all)
      | ok u =>
        cases u
        dsimp only at h
        rcases hr : readBlockCached fs3 (i3.direct.getD 11 0) with ⟨fs4, r2⟩
        rw [hr] at h
        cases r2 with
        | error e3 =>
          exact Or.inr (Or.inl
            (by have := readBlockCached_error_key fs3 fs4 _ e3 hr; simp_all))
        | ok p => simp_all

/-- The allocation loop of `write` can only fail with `ENOSPC`, `KeyError`
or `TypeError`. -/
theorem allocLoop_error_kinds (l : List Nat) :
    ∀ fs inode fs2 i2 e, allocLoop fs inode l = (fs2, i2, .error e) →
      e = .osENOSPC ∨ e = .keyError ∨ e = .typeError := by
  induction l with
  | nil => intro fs inode fs2 i2 e h; simp [allocLoop] at h
  | cons i rest ih =>
    intro fs inode fs2 i2 e h
    unfold allocLoop at h
    rcases hg : getOrAllocDataBlockAddr fs inode i with ⟨fs3, i3, r⟩
    rw [hg] at h
    cases r with
    | error e3 =>
      have := getOrAlloc_error_kinds fs fs3 inode i3 i e3 hg
      simp_all
    | ok a => exact ih fs3 i3 fs2 i2 e h

/-- `disk.write_block` can only fail its full-block assertion. -/
theorem diskWriteBlock_error_assert (fs fs2 : FS) (addr : Nat) (b : List Nat)
    (e : PyErr) (h : diskWriteBlock fs addr b = (fs2, .error e)) :
    e = .assertionError := by
  unfold diskWriteBlock at h
  split at h <;> simp_all

/-- `_write_block_cached` can only fail the full-block assertion. -/
theorem writeBlockCached_error_assert (fs fs2 : FS) (addr : Nat) (b : List Nat)
    (e : PyErr) (h : writeBlockCached fs addr b = (fs2, .error e)) :
    e = .assertionError := by
  unfold writeBlockCached at h
  rcases hd : diskWriteBlock fs addr b with ⟨fs3, r⟩
  rw [hd] at h
  cases r with
  | error e3 =>
    have := diskWriteBlock_error_assert fs fs3 addr b e3 hd
    simp_all
  | ok u => cases u; simp_all

/-- The buffer-writing loop of `write` can only fail with `KeyError`,
`TypeError` or `AssertionError`. -/
theorem writeLoop_error_kinds (l : List Nat) :
    ∀ fs inode data offset startIdx endIdx cursor fs2 e,
      writeLoop fs inode data offset startIdx endIdx l cursor = (fs2, .error e) →
      e = .keyError ∨ e = .typeError ∨ e = .assertionError := by
  induction l with
  | nil => intro fs inode data offset startIdx endIdx cursor fs2 e h; simp [writeLoop] at h
  | cons i rest ih =>
    intro fs inode data offset startIdx endIdx cursor fs2 e h
    unfold writeLoop at h
    rcases hg : getDataBlockAddr fs inode i with ⟨fs3, r⟩
    rw [hg] at h
    cases r with
    | error e3 =>
      dsimp only at h
      simp only [Prod.mk.injEq, Except.error.injEq] at h
      obtain ⟨-, rfl⟩ := h
      rcases getDataBlockAddr_error_kt fs fs3 inode i e3 hg with rfl | rfl
      · exact Or.inl rfl
      · exact Or.inr (Or.inl rfl)
    | ok addr =>
      dsimp only at h
      generalize (if i = startIdx then offset % fs.blockSize else 0) = cs at h
      generalize (if i = endIdx then (offset + data.length - 1) % fs.blockSize + 1
        else fs.blockSize) = ce at h
      split at h
      · rcases hr : readBlockCached fs3 addr with ⟨fs4, r2⟩
        rw [hr] at h
        cases r2 with
        | error e3 =>
          dsimp only at h
          simp only [Prod.mk.injEq, Except.error.injEq] at h
          obtain ⟨-, rfl⟩ := h
          exact Or.inl (readBlockCached_error_key fs3 fs4 addr e3 hr)
        | ok p =>
          dsimp only at h
          simp only [Prod.mk.injEq, Except.error.injEq] at h
          obtain ⟨-, rfl⟩ := h
          exact Or.inr (Or.inl rfl)
      · rcases hw : writeBlockCached fs3 addr ((data.drop cursor).take fs.blockSize)
          with ⟨fs4, r2⟩
        rw [hw] at h
        cases r2 with
        | error e3 =>
          dsimp only at h
          simp only [Prod.mk.injEq, Except.error.injEq] at h
          obtain ⟨-, rfl⟩ := h
          exact Or.inr (Or.inr (writeBlockCached_error_assert fs3 fs4 addr _ e3 hw))
        | ok u =>
          cases u
          dsimp only at h
          exact ih fs4 inode data offset startIdx endIdx (cursor + (ce - cs)) fs2 e h

/-! ## Claim theorems -/

/-- Claim C1 (code_bug): the claim says that `recover`, on a scanned window
holding a descriptor for tid T followed by its n data blocks and a commit
block for T, writes each buffered data block to its destination.  On
`fsC1` — exactly such a window (descriptor at block 1 for tid 1 with
destination 20, data at block 2, commit at block 3) — `recover` instead
raises `TypeError` inside `DescriptorBlock.unpack` (it calls `range()` on
the 1-tuple `struct.unpack` returns) and writes nothing: destination
block 20 is never touched. -/
theorem c1_recover_crashes :
    recoverFS fsC1 = (fsC1, .error .typeError) ∧
    assocFind fsC1.disk 20 = none :=
  ⟨rfl, rfl⟩

/-- Claim C2 (confirmed): recovery is idempotent — whenever a run of
`recover` completes, running it again from the resulting state changes
nothing: same disk contents and same journal superblock. -/
theorem c2_recover_idempotent (s s1 : FS) (h : recoverFS s = (s1, .ok ())) :
    recoverFS s1 = (s1, .ok ()) := by
  unfold recoverFS at h
  by_cases hc : s.jsb.head = s.jsb.tail
  · rw [if_pos hc] at h
    injection h with h1 h2
    subst h1
    unfold recoverFS
    rw [if_pos hc]
  · rw [if_neg hc] at h
    split at h
    · exact absurd h (by simp)
    · dsimp only at h
      split at h
      · exact absurd h (by simp)
      · unfold diskWriteBlock at h
        split at h
        · injection h with h1 h2
          subst h1
          unfold recoverFS
          rw [if_pos rfl]
        · exact absurd h (by simp)

/-- Witness for C2: a completed recovery on a dirty journal, replayed. -/
theorem c2_recover_idempotent_witness :
    recoverFS (recoverFS fsDirty).1 = ((recoverFS fsDirty).1, .ok ()) :=
  c2_recover_idempotent fsDirty (recoverFS fsDirty).1 rfl

/-- Counterexample to claim C3 as stated: `txOD` has an **empty staging
map** (and a non-empty ordered-data set), yet `commit` emits log records
(a descriptor is written at the old `tail`) and changes the journal
superblock. -/
theorem c3_counterexample :
    txOD.writeBuffer = [] ∧
    (commitFS fsBase txOD).1.jsb ≠ fsBase.jsb ∧
    (assocFind (commitFS fsBase txOD).1.disk fsBase.jsb.tail).isSome = true :=
  ⟨rfl, by decide, rfl⟩

/-- Claim C3 (corrected): `commit` returns without writing anything and
leaves the journal superblock unchanged exactly when **both** the staging
map and the ordered-data set are empty (the source guard is
`if not tx.write_buffer and not tx.ordered_data_blocks`). -/
theorem c3_commit_empty_noop (fs : FS) (tx : Tx)
    (hw : tx.writeBuffer = []) (ho : tx.orderedData = []) :
    commitFS fs tx = (fs, .ok ()) := by
  unfold commitFS
  rw [if_pos ⟨hw, ho⟩]

/-- Witness for C3's amended theorem. -/
theorem c3_commit_empty_noop_witness :
    commitFS fsBase ⟨2, [], []⟩ = (fsBase, .ok ()) :=
  c3_commit_empty_noop fsBase ⟨2, [], []⟩ rfl rfl

/-- Counterexample to claim C4 as stated: on a freshly mounted journal
with `last_tid = 0`, the first `begin` allocates tid 2, not
`last_tid + 1 = 1` (`__init__` already sets `next_tid = last_tid + 1` and
`begin` increments before use). -/
theorem c4_counterexample :
    (beginTid (mountJournal fsBase jsbClean)).2 ≠ jsbClean.lastTid + 1 := by
  decide

/-- Claim C4 (corrected): `begin` always allocates `next_tid + 1`
(incrementing the counter), consecutive begins allocate consecutive tids
(strict monotonicity), and the first transaction begun after mount gets
`last_tid + 2`. -/
theorem c4_tid_allocation (fs : FS) (j : JournalSB) :
    (beginTid fs).2 = fs.nextTid + 1 ∧
    (beginTid (beginTid fs).1).2 = (beginTid fs).2 + 1 ∧
    (beginTid (mountJournal fs j)).2 = j.lastTid + 2 :=
  ⟨rfl, rfl, rfl⟩

/-- Claim C5 (code_bug): the claim says `get_addr` returns 0 without
dereferencing when the governing index pointer is 0.  With
`direct[10] = 0` and logical index 10, the code instead dereferences
block 0 through the page cache: `PageCache.get` raises `KeyError` (and on
a cache hit the subsequent slicing of the `CachedPage` raises
`TypeError`); it never returns 0. -/
theorem c5_get_addr_zero_indirect_crashes :
    inoZero.direct.getD 10 0 = 0 ∧
    getDataBlockAddr fsBase inoZero 10 = (fsBase, .error .keyError) :=
  ⟨rfl, rfl⟩

/-- Claim C6 (code_bug): the claim describes the superblock `make_image`
writes (magic + 11 fields + reserved zero), but `make_image` passes
fourteen arguments to `SB_FMT = "<8sIIIIIIIIIII"`, a 12-item format, so
`struct.pack` fails for every input and no superblock bytes are ever
produced. -/
theorem c6_make_image_superblock_pack_fails
    (blockSize totalBlocks inodeCount ibStart ibBlocks bbStart bbBlocks
      itStart itBlocks jaStart jaBlocks dataStart : Nat) :
    makeImageSuperblock blockSize totalBlocks inodeCount ibStart ibBlocks
      bbStart bbBlocks itStart itBlocks jaStart jaBlocks dataStart = none :=
  rfl

/-- Claim C7 (confirmed): a `write` through a valid handle whose covered
block range reaches `10 + B/4 + (B/4)²` fails with `EFBIG` leaving the
state untouched (no allocation, no journal commit), and a write whose
covered range stays below the bound never raises `EFBIG`.  (`0 < B`
mirrors Python, where a zero block size would raise `ZeroDivisionError`
instead.) -/
theorem c7_write_bounds (fs : FS) (data : List Nat) (offset fh : Nat) (st : OpenFile)
    (_hB : 0 < fs.blockSize) :
    (assocFind fs.openFileTable fh = some st → data ≠ [] →
       maxBlocks fs ≤ (offset + data.length - 1) / fs.blockSize →
       fsWrite fs data offset fh = (fs, .error .osEFBIG)) ∧
    ((offset + data.length - 1) / fs.blockSize < maxBlocks fs →
       (fsWrite fs data offset fh).2 ≠ .error .osEFBIG) := by
  constructor
  · intro hfh hd hge
    unfold fsWrite
    rw [hfh]
    dsimp only
    rw [if_neg (by simpa using hd)]
    rw [if_pos hge]
  · intro hlt
    unfold fsWrite
    cases hfind : assocFind fs.openFileTable fh with
    | none => simp
    | some st2 =>
      dsimp only
      by_cases h0 : data.length = 0
      · rw [if_pos h0]; simp
      · rw [if_neg h0]
        rw [if_neg (by omega :
          ¬ maxBlocks fs ≤ (offset + data.length - 1) / fs.blockSize)]
        rcases ha : allocLoop fs (inodeTableRead fs st2.ino)
            (pyRangeList (offset / fs.blockSize)
              ((offset + data.length - 1) / fs.blockSize + 1)) with ⟨fs3, i3, r⟩
        cases r with
        | error e =>
          dsimp only
          intro hcon
          rcases allocLoop_error_kinds _ fs _ fs3 i3 e ha with rfl | rfl | rfl <;>
            simp at hcon
        | ok u =>
          cases u
          dsimp only
          rcases hw : writeLoop fs3 i3 data offset (offset / fs.blockSize)
              ((offset + data.length - 1) / fs.blockSize)
              (pyRangeList (offset / fs.blockSize)
                ((offset + data.length - 1) / fs.blockSize + 1)) 0 with ⟨fs4, r2⟩
          cases r2 with
          | error e =>
            dsimp only
            intro hcon
            rcases writeLoop_error_kinds _ fs3 i3 data offset _ _ 0 fs4 e hw with
              rfl | rfl | rfl <;> simp at hcon
          | ok u2 =>
            cases u2
            simp [beginTid, inodeTableWriteTx, finallyCommit, commitFS]

/-- Witness for C7: on `fsBase` (B = 64, bound 282) a 1-byte write at
offset `282 · 64` fails with `EFBIG` and leaves the state unchanged,
while the same write at offset 0 does not raise `EFBIG`. -/
theorem c7_write_bounds_witness :
    fsWrite fsBase [1] 18048 3 = (fsBase, .error .osEFBIG) ∧
    (fsWrite fsBase [1] 0 3).2 ≠ .error .osEFBIG :=
  ⟨(c7_write_bounds fsBase [1] 18048 3 ⟨0, 0, 0⟩ (by decide)).1 (by decide)
      (by decide) (by decide),
   (c7_write_bounds fsBase [1] 0 3 ⟨0, 0, 0⟩ (by decide)).2 (by decide)⟩

/-- Claim C8 (code_bug): the inode codec, the directory codec,
`JournalHeader` and `CommitBlock` all round-trip, but
`DescriptorBlock.unpack(DescriptorBlock.pack(d))` raises `TypeError` on
every descriptor (here `d8`, padded to a block as `recover` reads it), so
the claimed round-trip for journal records fails. -/
theorem c8_codec_roundtrips :
    (inodePack i8).map inodeUnpack = some i8 ∧
    (packDir ents8).map unpackDir = some ents8 ∧
    (jheaderPack ⟨2, 9⟩).map jheaderUnpack = some (.ok ⟨2, 9⟩) ∧
    (commitPack ⟨3, 4⟩).map commitUnpack = some (.ok ⟨3, 4⟩) ∧
    (descPack d8).map (fun b => descUnpack (ljustZero b 64)) =
      some (.error .typeError) :=
  ⟨rfl, rfl, rfl, rfl, rfl⟩

/-- Claim C9 (code_bug): the claim says a read through the page cache of
an uncached address falls back to the device and never fails; in the code
`PageCache.get` raises `KeyError` for every absent address (the fallback
in `_read_block_cached` is dead code). -/
theorem c9_page_cache_get_raises (fs : FS) (addr : Nat)
    (h : assocFind fs.cache addr = none) :
    readBlockCached fs addr = (fs, .error .keyError) := by
  unfold readBlockCached pageCacheGet
  rw [h]

/-- Witness for C9: block 5 exists on the device of `fsC9` but is not
cached; the cached read still raises `KeyError`. -/
theorem c9_page_cache_get_raises_witness :
    readBlockCached fsC9 5 = (fsC9, .error .keyError) :=
  c9_page_cache_get_raises fsC9 5 rfl

/-- Claim C10 (code_bug): the claim describes chmod's update
`mode := (old & S_IFMT) | (m & 0o777)` with a ctime bump and all other
fields untouched.  The in-body computation matches, but the call
`inode_table.write(ino, inode, tx)` raises `TypeError` (the method takes
no transaction), so `chmod "/"` fails and the on-disk inode record —
whose mode the claim expects to change to 0x41C0 — keeps all its old
fields; the only state change is the tid counter bumped by `begin`. -/
theorem c10_chmod_crashes :
    ((rootInode.mode &&& 0xF000) ||| (0o700 &&& 0o777)) ≠ rootInode.mode ∧
    fsChmod fsC10 [47] 0o700 = ({fsC10 with nextTid := 2}, .error .typeError) ∧
    inodeTableRead (fsChmod fsC10 [47] 0o700).1 0 = rootInode :=
  ⟨by decide, rfl, rfl⟩

end WayneFSModel
